import Mathlib

/-!
Verification development for the Olera onboarding / identity-verification
flow engine (`AuthFlowModal` and its helpers in `src/app/my-care/layout.tsx`).

Each definition is a shallow embedding of the corresponding TypeScript
function: pure computations become Lean functions; React state updates and
external calls (Supabase, `localStorage`) become explicit state passing and
effect lists; gateway outcomes are passed in as parameters.  JavaScript
truthiness on the string / array / nullable fields is modelled explicitly.
-/

namespace Olera

/-- User intent: looking for care (family) or providing care (provider). -/
inductive UserIntent
  | family
  | provider
deriving DecidableEq, Repr, Fintype

/-- Provider subtype. -/
inductive ProviderType
  | organization
  | caregiver
deriving DecidableEq, Repr, Fintype

/-- The flow steps of `AuthFlowStep` (string union in the source). -/
inductive AuthFlowStep
  | intent
  | providerType
  | providerInfo
  | orgSearch
  | visibility
  | familyInfo
  | familyNeeds
  | auth
  | verifyCode
deriving DecidableEq, Repr, Fintype

/-- The fields of a `Profile` row that the flow engine reads or writes.
Nullable columns are `Option`; `none` models SQL null / JS `undefined`. -/
structure Profile where
  id : String
  display_name : Option String
  city : Option String
  state : Option String
  zip : Option String
  care_types : Option (List String)
  category : Option String
  phone : Option String
  profileDescription : Option String
  account_id : Option String
  claim_state : String
deriving DecidableEq, Repr

/-- `FlowData`: the record accumulated across steps. -/
structure FlowData where
  email : String
  password : String
  displayName : String
  intent : Option UserIntent
  providerType : Option ProviderType
  orgName : String
  city : String
  state : String
  zip : String
  careTypes : List String
  category : Option String
  flowDescription : String
  phone : String
  visibleToFamilies : Bool
  visibleToProviders : Bool
  claimedProfileId : Option String
  claimedProfile : Option Profile
  careRecipientName : String
  careRecipientRelation : String
  careNeeds : List String
deriving DecidableEq, Repr

/-- `INITIAL_DATA` from the source. -/
def INITIAL_DATA : FlowData where
  email := ""
  password := ""
  displayName := ""
  intent := none
  providerType := none
  orgName := ""
  city := ""
  state := ""
  zip := ""
  careTypes := []
  category := none
  flowDescription := ""
  phone := ""
  visibleToFamilies := true
  visibleToProviders := true
  claimedProfileId := none
  claimedProfile := none
  careRecipientName := ""
  careRecipientRelation := ""
  careNeeds := []

/-- JS falsiness of a nullable string field (`!s.x`): null or the empty
string. -/
def strFalsy : Option String → Bool
  | none => true
  | some s => s = ""

/-- JS `s.trim()`: drop whitespace from both ends (computed on the
character list so that it evaluates by reduction). -/
def jsTrim (s : String) : String :=
  ⟨((s.data.dropWhile Char.isWhitespace).reverse.dropWhile Char.isWhitespace).reverse⟩

/-- JS falsiness of `s.x?.trim()`: null, or blank after trimming. -/
def strTrimFalsy : Option String → Bool
  | none => true
  | some s => jsTrim s = ""

/-- JS falsiness of `!s.care_types || s.care_types.length === 0`. -/
def listFalsy : Option (List String) → Bool
  | none => true
  | some l => l.isEmpty

/-- The claim branch of `createProviderProfile` (source lines 1003-1027):
the update object built for an existing claimed profile `s` from flow data
`d`, applied to `s` (Supabase `.update` overwrites exactly the keys
present in the update object and leaves the rest of the row unchanged). -/
def claimMergeProfile (accountId : String) (s : Profile) (d : FlowData) : Profile :=
  { s with
    account_id := some accountId
    claim_state := "pending"
    display_name :=
      if strTrimFalsy s.display_name && d.orgName ≠ "" then some d.orgName
      else s.display_name
    city := if strFalsy s.city && d.city ≠ "" then some d.city else s.city
    state := if strFalsy s.state && d.state ≠ "" then some d.state else s.state
    zip := if strFalsy s.zip && d.zip ≠ "" then some d.zip else s.zip
    care_types :=
      if listFalsy s.care_types && d.careTypes.length > 0 then some d.careTypes
      else s.care_types
    profileDescription :=
      if strTrimFalsy s.profileDescription && d.flowDescription ≠ "" then
        some d.flowDescription
      else s.profileDescription
    phone := if strFalsy s.phone && d.phone ≠ "" then some d.phone else s.phone }

/-- `isProviderInfoValid` (source lines 550-558). -/
def isProviderInfoValid (d : FlowData) : Bool :=
  let name := if d.providerType = some .organization then d.orgName else d.displayName
  (jsTrim name).length > 0 &&
    ((jsTrim d.city).length > 0 || (jsTrim d.state).length > 0) &&
    d.careTypes.length > 0 &&
    (jsTrim d.phone).length > 0

/-- The `Continue` button on the provider-info step is rendered with
`disabled={!isValid || loading}` (source line 1470): advancing is enabled
iff not loading and the data is valid. -/
def providerInfoNextEnabled (loading : Bool) (d : FlowData) : Bool :=
  !(!(isProviderInfoValid d) || loading)

/-- Result of `getStepConfig`. -/
structure StepConfig where
  title : String
  stepNumber : Nat
  totalSteps : Nat
deriving DecidableEq, Repr

/-- The provider-branch `stepMap` object (a JS record; absent keys read as
`undefined`, modelled by `none`). -/
def stepMapProvider (isOrg : Bool) : AuthFlowStep → Option Nat
  | .intent => some 0
  | .providerType => some 1
  | .providerInfo => some 2
  | .orgSearch => some 3
  | .visibility => some (if isOrg then 3 else 2)
  | .auth => some (if isOrg then 4 else 3)
  | .verifyCode => some (if isOrg then 4 else 3)
  | _ => none

/-- The family-branch `stepMap` object. -/
def stepMapFamily : AuthFlowStep → Option Nat
  | .intent => some 0
  | .familyInfo => some 1
  | .familyNeeds => some 2
  | .auth => some 3
  | .verifyCode => some 3
  | _ => none

/-- The JS expression `stepMap[step] || 1`: `undefined` and `0` both fall
through to `1`. -/
def jsOrOne : Option Nat → Nat
  | some n => if n = 0 then 1 else n
  | none => 1

/-- The `titles` record of `getStepConfig`. -/
def stepTitle (d : FlowData) : AuthFlowStep → String
  | .intent => "Welcome to Olera"
  | .providerType => "Tell us about yourself"
  | .providerInfo =>
      if d.providerType = some .organization then "About your organization"
      else "About you"
  | .orgSearch => "Is your organization listed?"
  | .visibility => "Who can find you?"
  | .familyInfo => "Who needs care?"
  | .familyNeeds => "Care preferences"
  | .auth => "Create your account"
  | .verifyCode => "Verify your email"

/-- `getStepConfig` (source lines 180-237). -/
def getStepConfig (step : AuthFlowStep) (d : FlowData) (isAuthenticated : Bool) :
    StepConfig :=
  let isProvider := d.intent = some .provider
  let isOrg := d.providerType = some .organization
  if isProvider then
    let totalSteps := (if isOrg then 3 else 2) + (if isAuthenticated then 0 else 1)
    { title := stepTitle d step
      stepNumber := jsOrOne (stepMapProvider isOrg step)
      totalSteps := totalSteps }
  else
    let totalSteps := if isAuthenticated then 2 else 3
    { title := stepTitle d step
      stepNumber := jsOrOne (stepMapFamily step)
      totalSteps := totalSteps }

/-- The component state that the auth-step handlers read and write. -/
structure FlowState where
  step : AuthFlowStep
  data : FlowData
  error : String
  loading : Bool
  otpCode : String
  resendCooldown : Nat
deriving DecidableEq, Repr

/-- The identity-gateway operations the handlers can invoke. -/
inductive GatewayCall
  | signUpCall
  | signInWithPasswordCall
  | signInWithOtpCall
  | verifyOtpCall
deriving DecidableEq, Repr

/-- Outcome of `supabase.auth.verifyOtp`: success, or an error whose message
contains "expired", contains "invalid", or is something else. -/
inductive OtpVerifyOutcome
  | ok
  | errExpired
  | errInvalid
  | errOther (msg : String)
deriving DecidableEq, Repr

/-- Outcome of a `signInWithOtp` send. -/
inductive SendOtpOutcome
  | ok
  | err (msg : String)
deriving DecidableEq, Repr

/-- Outcome of `supabase.auth.signUp`: a gateway error, a session (no email
confirmation needed), or no session (confirmation required), in which case
`identitiesEmpty` models `authData.user?.identities?.length === 0`. -/
inductive SignUpOutcome
  | authErr (msg : String)
  | okSession
  | okNoSession (identitiesEmpty : Bool)
deriving DecidableEq, Repr

/-- `handleVerifyOtp` (source lines 756-800).  Returns the new state, the
gateway calls performed, and whether `handleComplete` is invoked. -/
def handleVerifyOtp (configured : Bool) (res : OtpVerifyOutcome) (st : FlowState) :
    FlowState × List GatewayCall × Bool :=
  if st.otpCode.length ≠ 8 then
    ({ st with error := "Please enter the 8-digit code." }, [], false)
  else if !configured then
    ({ st with error := "Authentication is not configured.", loading := false }, [], false)
  else
    match res with
    | .errExpired =>
        ({ st with
            error := "This code has expired. Please request a new one."
            loading := false }, [.verifyOtpCall], false)
    | .errInvalid =>
        ({ st with
            error := "Invalid code. Please check and try again."
            loading := false }, [.verifyOtpCall], false)
    | .errOther m =>
        ({ st with error := m, loading := false }, [.verifyOtpCall], false)
    | .ok =>
        ({ st with error := "", loading := true }, [.verifyOtpCall], true)

/-- `handleResendCode` (source lines 802-838).  The early return on a
positive cooldown happens before any state change or gateway call. -/
def handleResendCode (configured : Bool) (res : SendOtpOutcome) (st : FlowState) :
    FlowState × List GatewayCall :=
  if st.resendCooldown > 0 then (st, [])
  else if !configured then
    ({ st with error := "Authentication is not configured.", loading := false }, [])
  else
    match res with
    | .err m => ({ st with error := m, loading := false }, [.signInWithOtpCall])
    | .ok =>
        ({ st with
            error := ""
            resendCooldown := 60
            otpCode := ""
            loading := false }, [.signInWithOtpCall])

/-- JS `haystack.includes(needle)`: substring containment. -/
def strIncludes (haystack needle : String) : Bool :=
  (haystack.splitOn needle).length > 1

/-- Error-message mapping in `handleSendOtpForSignIn`. -/
def sendOtpSignInErrMsg (m : String) : String :=
  if strIncludes m "not found" || strIncludes m "not registered" then
    "No account found with this email. Please sign up first."
  else m

/-- `handleSendOtpForSignIn` (source lines 841-883): the email-me-a-code
sign-in path. -/
def handleSendOtpForSignIn (configured : Bool) (res : SendOtpOutcome) (st : FlowState) :
    FlowState × List GatewayCall :=
  if jsTrim st.data.email = "" then
    ({ st with error := "Please enter your email address first." }, [])
  else if !configured then
    ({ st with error := "Authentication is not configured.", loading := false }, [])
  else
    match res with
    | .err m => ({ st with error := sendOtpSignInErrMsg m, loading := false },
        [.signInWithOtpCall])
    | .ok =>
        ({ st with
            error := ""
            loading := false
            resendCooldown := 30
            step := .verifyCode }, [.signInWithOtpCall])

/-- `handleSignUp` (source lines 641-716).  In the confirmation-required
branch the follow-up OTP send may fail, but the source only logs that and
still shows the verify screen with a 30s cooldown, so the OTP-send outcome
does not affect the resulting state.  Returns the new state, the gateway
calls, and whether `handleComplete` is invoked. -/
def handleSignUp (configured : Bool) (res : SignUpOutcome) (st : FlowState) :
    FlowState × List GatewayCall × Bool :=
  if st.data.password.length < 8 then
    ({ st with error := "Password must be at least 8 characters." }, [], false)
  else if !configured then
    ({ st with error := "Authentication is not configured.", loading := false }, [], false)
  else
    match res with
    | .authErr m =>
        let msg :=
          if strIncludes m "already registered" then
            "This email is already registered. Try signing in instead."
          else m
        ({ st with error := msg, loading := false }, [.signUpCall], false)
    | .okNoSession identitiesEmpty =>
        if identitiesEmpty then
          ({ st with
              error := "This email is already registered. Try signing in instead."
              loading := false }, [.signUpCall], false)
        else
          ({ st with
              error := ""
              resendCooldown := 30
              loading := false
              step := .verifyCode }, [.signUpCall, .signInWithOtpCall], false)
    | .okSession =>
        ({ st with error := "", loading := false }, [.signUpCall], true)

/-- The persisted subset of `FlowData` (the `data` object built in the
save effect, source lines 323-345): no email, password, or claim fields. -/
structure SavedData where
  intent : Option UserIntent
  providerType : Option ProviderType
  orgName : String
  displayName : String
  city : String
  state : String
  zip : String
  careTypes : List String
  category : Option String
  savedDescription : String
  phone : String
  visibleToFamilies : Bool
  visibleToProviders : Bool
  careRecipientName : String
  careRecipientRelation : String
  careNeeds : List String
deriving DecidableEq, Repr

/-- Projection of `FlowData` to the persisted subset. -/
def toSavedData (d : FlowData) : SavedData where
  intent := d.intent
  providerType := d.providerType
  orgName := d.orgName
  displayName := d.displayName
  city := d.city
  state := d.state
  zip := d.zip
  careTypes := d.careTypes
  category := d.category
  savedDescription := d.flowDescription
  phone := d.phone
  visibleToFamilies := d.visibleToFamilies
  visibleToProviders := d.visibleToProviders
  careRecipientName := d.careRecipientName
  careRecipientRelation := d.careRecipientRelation
  careNeeds := d.careNeeds

/-- The full blob written to `localStorage` (step, filtered data,
timestamp). -/
structure SavedBlob where
  step : AuthFlowStep
  blobData : SavedData
  timestamp : Int
deriving DecidableEq, Repr

/-- The save effect (source lines 320-351): writes a blob unless the modal
is closed or the current step is `auth` or `verify-code`; `none` means no
write occurs. -/
def persistEffect (isOpen : Bool) (step : AuthFlowStep) (d : FlowData) (now : Int) :
    Option SavedBlob :=
  if isOpen && step ≠ .auth && step ≠ .verifyCode then
    some { step := step, blobData := toSavedData d, timestamp := now }
  else none

/-- A stored draft as parsed from JSON: either field may be absent. -/
structure ParsedDraft where
  timestamp : Option Int
  draftData : Option SavedData
deriving DecidableEq, Repr

/-- The contents of the draft key in `localStorage`: `none` = no entry;
`some none` = an entry whose blob fails `JSON.parse`; `some (some p)` = a
parseable entry. -/
abbrev DraftStorage := Option (Option ParsedDraft)

/-- `setData((prev) => ({ ...prev, ...parsed.data }))`: every persisted
field overwrites the in-memory value; unsaved fields keep their value. -/
def mergeSaved (prev : FlowData) (s : SavedData) : FlowData :=
  { prev with
    intent := s.intent
    providerType := s.providerType
    orgName := s.orgName
    displayName := s.displayName
    city := s.city
    state := s.state
    zip := s.zip
    careTypes := s.careTypes
    category := s.category
    flowDescription := s.savedDescription
    phone := s.phone
    visibleToFamilies := s.visibleToFamilies
    visibleToProviders := s.visibleToProviders
    careRecipientName := s.careRecipientName
    careRecipientRelation := s.careRecipientRelation
    careNeeds := s.careNeeds }

/-- The restore effect (source lines 354-376).  Returns the resulting
`FlowData` and the resulting storage contents.  A missing `timestamp`
makes the freshness comparison false (NaN), so the blob is removed like an
expired one; an unparseable blob throws inside the `try`, so nothing
happens; accessing `parsed.data.intent` when `data` is absent also throws,
so nothing happens. -/
def restoreEffect (isOpen : Bool) (claimFlow : Bool) (initialIntent : Option UserIntent)
    (storage : DraftStorage) (now : Int) (st : FlowData) : FlowData × DraftStorage :=
  if isOpen && !claimFlow then
    match storage with
    | none => (st, none)
    | some none => (st, some none)
    | some (some p) =>
      let fresh : Bool := match p.timestamp with
        | some t => decide (now - t < 30 * 60 * 1000)
        | none => false
      if fresh then
        match initialIntent with
        | none =>
          match p.draftData with
          | some sd => (mergeSaved st sd, some (some p))
          | none => (st, some (some p))
        | some ii =>
          match p.draftData with
          | none => (st, some (some p))
          | some sd =>
            if sd.intent = some ii then (mergeSaved st sd, some (some p))
            else (st, some (some p))
      else (st, none)
  else (st, storage)

/-- One run of the auto-complete effect (source lines 433-444) on the
latch `claimAutoCompleteRef.current`: returns the new latch value and
whether `handleComplete` was invoked in this run. -/
def claimAutoCompleteStep (latch : Bool) (isOpen hasClaim hasUser : Bool) :
    Bool × Bool :=
  let fires := isOpen && hasClaim && hasUser && !latch
  let latched := if fires then true else latch
  (if !isOpen then false else latched, fires)

/-- Fold the auto-complete effect over a sequence of re-evaluations, each
given as `(isOpen, hasClaim, hasUser)`: returns the final latch value and
how many times `handleComplete` was invoked. -/
def runClaimAutoComplete (latch : Bool) :
    List (Bool × Bool × Bool) → Bool × Nat
  | [] => (latch, 0)
  | e :: rest =>
    let r := claimAutoCompleteStep latch e.1 e.2.1 e.2.2
    let tail := runClaimAutoComplete r.1 rest
    (tail.1, (if r.2 then 1 else 0) + tail.2)

/-- The fields of an `accounts` row the orchestrator uses. -/
structure Account where
  id : String
  display_name : Option String
deriving DecidableEq, Repr

/-- Durable-store operations the orchestrator can perform. -/
inductive DbEffect
  | ensureAccount (displayName : String)
  | updateClaimedProfile (profileId : String)
  | insertProviderProfile
  | insertFamilyProfile
  | updateAccount (accountId : String)
  | upsertMembership (accountId : String)
  | clearDraft
deriving DecidableEq, Repr

/-- Typed failures of `handleComplete`.  Each maps to one early return or
thrown error in the source: `notConfigured` to the `isSupabaseConfigured`
guard, `notAuthenticated` to the null-user guard, `missingIntent` to the
null-intent branch (source lines 942-947), `accountSetupFailed` to the
null account after ensure-account, `backend m` to any thrown error. -/
inductive CommitError
  | notConfigured
  | notAuthenticated
  | missingIntent
  | accountSetupFailed
  | backend (msg : String)
deriving DecidableEq, Repr

/-- `currentUser.email?.split("@")[0]`. -/
def emailLocalPart (email : String) : String :=
  (email.splitOn "@").headD ""

/-- Whether a durable-store effect writes a profile, account, or
membership record. -/
def DbEffect.isProfileOrAccountWrite : DbEffect → Bool
  | .updateClaimedProfile _ => true
  | .insertProviderProfile => true
  | .insertFamilyProfile => true
  | .updateAccount _ => true
  | .upsertMembership _ => true
  | _ => false

/-- The account-resolution stage of `handleComplete` (source lines
911-933): use the ambient account if present, otherwise call the
ensure-account API with a display name derived as
`data.displayName || data.orgName || email local part || ""`. -/
def ensureAccountStage (account : Option Account) (d : FlowData) (email : String)
    (ensureRes : Except String (Option Account)) :
    Except CommitError Account × List DbEffect :=
  match account with
  | some a => (.ok a, [])
  | none =>
    let dn := if d.displayName ≠ "" then d.displayName
              else if d.orgName ≠ "" then d.orgName
              else emailLocalPart email
    match ensureRes with
    | .error m => (.error (.backend m), [.ensureAccount dn])
    | .ok none => (.error .accountSetupFailed, [.ensureAccount dn])
    | .ok (some a) => (.ok a, [.ensureAccount dn])

/-- `handleComplete` (source lines 889-995), the commit orchestrator, with
the outcomes of the external calls passed in as parameters.  Returns the
commit result and the ordered list of durable-store effects attempted.
The membership upsert result is not checked by the source, so it needs no
outcome parameter. -/
def handleComplete (configured : Bool) (currentUser : Option String)
    (account : Option Account) (d : FlowData)
    (ensureRes : Except String (Option Account))
    (claimUpdateRes : Except String Unit)
    (insertProviderRes : Except String String)
    (insertFamilyRes : Except String String)
    (accountUpdateRes : Except String Unit) :
    Except CommitError String × List DbEffect :=
  if !configured then (.error .notConfigured, [])
  else
    match currentUser with
    | none => (.error .notAuthenticated, [])
    | some email =>
      match ensureAccountStage account d email ensureRes with
      | (.error e, effs) => (.error e, effs)
      | (.ok accountRow, effs0) =>
        match d.intent with
        | none => (.error .missingIntent, effs0)
        | some .provider =>
          let claimBranch := d.claimedProfileId.isSome && d.claimedProfile.isSome
          let profEffs : List DbEffect :=
            if claimBranch then [.updateClaimedProfile (d.claimedProfileId.getD "")]
            else [.insertProviderProfile]
          let profRes : Except String String :=
            if claimBranch then
              match claimUpdateRes with
              | .error m => .error m
              | .ok _ => .ok (d.claimedProfileId.getD "")
            else insertProviderRes
          match profRes with
          | .error m => (.error (.backend m), effs0 ++ profEffs)
          | .ok pid =>
            match accountUpdateRes with
            | .error m =>
                (.error (.backend m), effs0 ++ profEffs ++ [.updateAccount accountRow.id])
            | .ok _ =>
                (.ok pid, effs0 ++ profEffs ++
                  [.updateAccount accountRow.id, .upsertMembership accountRow.id,
                   .clearDraft])
        | some .family =>
          match insertFamilyRes with
          | .error m => (.error (.backend m), effs0 ++ [.insertFamilyProfile])
          | .ok pid =>
            match accountUpdateRes with
            | .error m =>
                (.error (.backend m), effs0 ++ [.insertFamilyProfile,
                  .updateAccount accountRow.id])
            | .ok _ =>
                (.ok pid, effs0 ++ [.insertFamilyProfile,
                  .updateAccount accountRow.id, .clearDraft])

/-- The navigation-relevant part of the component state: the current step
and the branch selectors inside `FlowData`. -/
structure PathState where
  step : AuthFlowStep
  intent : Option UserIntent
  ptype : Option ProviderType
deriving DecidableEq, Repr

/-- `getInitialStep` (source lines 255-267). -/
def getInitialStep (initialIntent : Option UserIntent)
    (initialProviderType : Option ProviderType) (claimFlow : Bool) : AuthFlowStep :=
  if claimFlow then .auth
  else
    match initialIntent with
    | some .provider => if initialProviderType.isSome then .providerInfo else .providerType
    | some .family => .familyInfo
    | none => .intent

/-- A `FlowData` carrying exactly the branch selectors of a `PathState`. -/
def stateData (st : PathState) : FlowData :=
  { INITIAL_DATA with intent := st.intent, providerType := st.ptype }

/-- The data-collection steps of each branch, in forward order (the spec
branch paths; `auth` and `verify-code` follow the last entry when the user
is unauthenticated). -/
def branchPath : UserIntent → Option ProviderType → List AuthFlowStep
  | .provider, some .organization => [.providerType, .providerInfo, .orgSearch]
  | .provider, _ => [.providerType, .providerInfo]
  | .family, _ => [.familyInfo, .familyNeeds]

/-- Reachable navigation states of a flow, indexed by whether the user is
authenticated.  `start` covers every non-claim invocation (any preset
combination); `startRestored` covers a draft restore on open, which merges
the draft branch selectors into the data while keeping the computed
initial step — the source only merges when no intent was preset or the
draft intent equals the preset (source line 364); `startClaim` covers a
claim invocation, which begins at `auth` with provider/organization data
regardless of authentication status (`getInitialStep` does not consult
it; an already-authenticated claim flow still opens on the auth step,
from which the auto-commit effect fires).  The remaining
constructors are the forward and back transitions of the handlers
(`handleIntentSelect`, `handleProviderTypeSelect`, `handleProviderInfoNext`,
`handleOrgSearchNext`, `handleFamilyInfoNext`, `handleFamilyNeedsNext`,
sign-up requiring verification, and `goBack`). -/
inductive Reaches (isAuth : Bool) : PathState → Prop
  | start (ii : Option UserIntent) (ipt : Option ProviderType) :
      Reaches isAuth ⟨getInitialStep ii ipt false, ii, ipt⟩
  | startRestored (ii : Option UserIntent) (ipt : Option ProviderType)
      (di : Option UserIntent) (dpt : Option ProviderType)
      (hcompat : ii = none ∨ di = ii) :
      Reaches isAuth ⟨getInitialStep ii ipt false, di, dpt⟩
  | startClaim :
      Reaches isAuth ⟨.auth, some .provider, some .organization⟩
  | chooseProvider (it : Option UserIntent) (pt : Option ProviderType) :
      Reaches isAuth ⟨.intent, it, pt⟩ →
      Reaches isAuth ⟨.providerType, some .provider, pt⟩
  | chooseFamily (it : Option UserIntent) (pt : Option ProviderType) :
      Reaches isAuth ⟨.intent, it, pt⟩ →
      Reaches isAuth ⟨.familyInfo, some .family, pt⟩
  | choosePT (it : Option UserIntent) (pt : Option ProviderType) (t : ProviderType) :
      Reaches isAuth ⟨.providerType, it, pt⟩ →
      Reaches isAuth ⟨.providerInfo, it, some t⟩
  | provInfoNextOrg (it : Option UserIntent) :
      Reaches isAuth ⟨.providerInfo, it, some .organization⟩ →
      Reaches isAuth ⟨.orgSearch, it, some .organization⟩
  | provInfoNextAuth (it : Option UserIntent) (pt : Option ProviderType)
      (h : isAuth = false) (hpt : pt ≠ some .organization) :
      Reaches isAuth ⟨.providerInfo, it, pt⟩ →
      Reaches isAuth ⟨.auth, it, pt⟩
  | orgSearchNext (it : Option UserIntent) (h : isAuth = false) :
      Reaches isAuth ⟨.orgSearch, it, some .organization⟩ →
      Reaches isAuth ⟨.auth, it, some .organization⟩
  | famInfoNext (it : Option UserIntent) (pt : Option ProviderType) :
      Reaches isAuth ⟨.familyInfo, it, pt⟩ →
      Reaches isAuth ⟨.familyNeeds, it, pt⟩
  | famNeedsNext (it : Option UserIntent) (pt : Option ProviderType)
      (h : isAuth = false) :
      Reaches isAuth ⟨.familyNeeds, it, pt⟩ →
      Reaches isAuth ⟨.auth, it, pt⟩
  | signUpVerify (it : Option UserIntent) (pt : Option ProviderType) :
      Reaches isAuth ⟨.auth, it, pt⟩ →
      Reaches isAuth ⟨.verifyCode, it, pt⟩
  | backVerify (it : Option UserIntent) (pt : Option ProviderType) :
      Reaches isAuth ⟨.verifyCode, it, pt⟩ →
      Reaches isAuth ⟨.auth, it, pt⟩
  | backProviderType (it : Option UserIntent) (pt : Option ProviderType) :
      Reaches isAuth ⟨.providerType, it, pt⟩ →
      Reaches isAuth ⟨.intent, it, pt⟩
  | backProviderInfo (it : Option UserIntent) (pt : Option ProviderType) :
      Reaches isAuth ⟨.providerInfo, it, pt⟩ →
      Reaches isAuth ⟨.providerType, it, pt⟩
  | backOrgSearch (it : Option UserIntent) (pt : Option ProviderType) :
      Reaches isAuth ⟨.orgSearch, it, pt⟩ →
      Reaches isAuth ⟨.providerInfo, it, pt⟩
  | backFamilyInfo (it : Option UserIntent) (pt : Option ProviderType) :
      Reaches isAuth ⟨.familyInfo, it, pt⟩ →
      Reaches isAuth ⟨.intent, it, pt⟩
  | backFamilyNeeds (it : Option UserIntent) (pt : Option ProviderType) :
      Reaches isAuth ⟨.familyNeeds, it, pt⟩ →
      Reaches isAuth ⟨.familyInfo, it, pt⟩
  | backAuthOrg (it : Option UserIntent)
      (hit : it = some .provider) :
      Reaches isAuth ⟨.auth, it, some .organization⟩ →
      Reaches isAuth ⟨.orgSearch, it, some .organization⟩
  | backAuthProvInfo (it : Option UserIntent) (pt : Option ProviderType)
      (hit : it = some .provider) (hpt : pt ≠ some .organization) :
      Reaches isAuth ⟨.auth, it, pt⟩ →
      Reaches isAuth ⟨.providerInfo, it, pt⟩
  | backAuthFamily (it : Option UserIntent) (pt : Option ProviderType)
      (hit : it ≠ some .provider) :
      Reaches isAuth ⟨.auth, it, pt⟩ →
      Reaches isAuth ⟨.familyNeeds, it, pt⟩

/-! Concrete data used by the witness and counterexample theorems. -/

/-- A fully populated seeded profile (city "Austin"). -/
def exTarget : Profile where
  id := "prof-1"
  display_name := some "Acme Care"
  city := some "Austin"
  state := some "TX"
  zip := some "73301"
  care_types := some ["Memory Care"]
  category := some "assisted_living"
  phone := some "555-0100"
  profileDescription := some "A nice place"
  account_id := none
  claim_state := "unclaimed"

/-- Flow data collected by a provider claiming `exTarget`, with a
conflicting city "Dallas". -/
def exClaimData : FlowData :=
  { INITIAL_DATA with
      intent := some .provider
      providerType := some .organization
      orgName := "Acme"
      city := "Dallas"
      state := "NM"
      zip := "75001"
      careTypes := ["Home Care"]
      flowDescription := "other"
      phone := "555-0199"
      claimedProfileId := some "prof-1"
      claimedProfile := some exTarget }

/-- A flow state sitting on the verify-code step with an 8-digit code
entered. -/
def exVerifyState : FlowState where
  step := .verifyCode
  data := exClaimData
  error := ""
  loading := true
  otpCode := "12345678"
  resendCooldown := 0

/-- A flow state sitting on the auth step with a long-enough password and
a zero cooldown. -/
def exAuthState : FlowState where
  step := .auth
  data := { exClaimData with email := "ann@example.com", password := "longpassword" }
  error := ""
  loading := true
  otpCode := ""
  resendCooldown := 0

/-- A verify-code state in the middle of a 12-second cooldown. -/
def exCooldownState : FlowState :=
  { exAuthState with step := .verifyCode, resendCooldown := 12 }

/-- Saved fields of a family-branch draft. -/
def exFamilySaved : SavedData :=
  toSavedData { INITIAL_DATA with
    intent := some .family
    displayName := "Jane Doe"
    city := "Austin" }

/-- A family-branch draft saved at time 0. -/
def exFamilyDraft : ParsedDraft where
  timestamp := some 0
  draftData := some exFamilySaved

-- ============================================================
-- Theorems
-- ============================================================

/-- A string of positive length is not empty. -/
lemma ne_empty_of_len_pos (s : String) (h : 0 < s.length) : s ≠ "" := by
  intro he; subst he; exact absurd h (by decide)

/-- A list of positive length is not nil. -/
lemma ne_nil_of_len_pos {α : Type} (l : List α) (h : 0 < l.length) : l ≠ [] := by
  intro he; subst he; simp at h

/-- C1: on commit of a provider flow with a claim target, the merge-update
always sets the account id and moves claim state to "pending", never
writes the category, and never overwrites a non-empty target field
(display name, city, state, zip, care types, description, phone): each
flow-collected value is written only if the target's existing value is
empty under the source's emptiness test. -/
theorem claimMerge_preserves_nonempty (a : String) (s : Profile) (d : FlowData) :
    (claimMergeProfile a s d).account_id = some a
    ∧ (claimMergeProfile a s d).claim_state = "pending"
    ∧ (claimMergeProfile a s d).category = s.category
    ∧ (strTrimFalsy s.display_name = false →
        (claimMergeProfile a s d).display_name = s.display_name)
    ∧ (strFalsy s.city = false → (claimMergeProfile a s d).city = s.city)
    ∧ (strFalsy s.state = false → (claimMergeProfile a s d).state = s.state)
    ∧ (strFalsy s.zip = false → (claimMergeProfile a s d).zip = s.zip)
    ∧ (listFalsy s.care_types = false →
        (claimMergeProfile a s d).care_types = s.care_types)
    ∧ (strTrimFalsy s.profileDescription = false →
        (claimMergeProfile a s d).profileDescription = s.profileDescription)
    ∧ (strFalsy s.phone = false → (claimMergeProfile a s d).phone = s.phone) := by
  refine ⟨rfl, rfl, rfl, ?_, ?_, ?_, ?_, ?_, ?_, ?_⟩ <;>
    intro h <;> simp [claimMergeProfile, h]

/-- C1 witness: the target with city "Austin" keeps "Austin" even though
the flow collected "Dallas", while account id and claim state are set. -/
theorem claimMerge_preserves_nonempty_witness :
    (claimMergeProfile "acct-1" exTarget exClaimData).city = some "Austin"
    ∧ (claimMergeProfile "acct-1" exTarget exClaimData).account_id = some "acct-1"
    ∧ (claimMergeProfile "acct-1" exTarget exClaimData).claim_state = "pending" := by
  have h := claimMerge_preserves_nonempty "acct-1" exTarget exClaimData
  exact ⟨h.2.2.2.2.1 (by decide), h.1, h.2.1⟩

/-- C2: when the flow data's intent is null, the commit orchestrator
performs no profile insert or update, no account update, and no membership
upsert; it never returns success; and as soon as account resolution
succeeds (ambient account present, or ensure-account returns one) the
surfaced failure is the typed missing-intent error. -/
theorem commit_missingIntent (u : String) (acct : Option Account) (d : FlowData)
    (ensureRes : Except String (Option Account)) (cr : Except String Unit)
    (pr fr : Except String String) (ar : Except String Unit)
    (hintent : d.intent = none) :
    ((handleComplete true (some u) acct d ensureRes cr pr fr ar).2.filter
        DbEffect.isProfileOrAccountWrite = [])
    ∧ (∀ pid, (handleComplete true (some u) acct d ensureRes cr pr fr ar).1 ≠ .ok pid)
    ∧ (∀ a, acct = some a →
        (handleComplete true (some u) acct d ensureRes cr pr fr ar).1
          = .error .missingIntent)
    ∧ (∀ a, acct = none → ensureRes = .ok (some a) →
        (handleComplete true (some u) acct d ensureRes cr pr fr ar).1
          = .error .missingIntent) := by
  cases acct with
  | some a =>
      refine ⟨?_, ?_, ?_, ?_⟩ <;>
        simp [handleComplete, ensureAccountStage, hintent, DbEffect.isProfileOrAccountWrite]
  | none =>
      cases ensureRes with
      | error m =>
          refine ⟨?_, ?_, ?_, ?_⟩ <;>
            simp [handleComplete, ensureAccountStage, hintent,
              DbEffect.isProfileOrAccountWrite]
      | ok oa =>
          cases oa with
          | none =>
              refine ⟨?_, ?_, ?_, ?_⟩ <;>
                simp [handleComplete, ensureAccountStage, hintent,
                  DbEffect.isProfileOrAccountWrite]
          | some a =>
              refine ⟨?_, ?_, ?_, ?_⟩ <;>
                simp [handleComplete, ensureAccountStage, hintent,
                  DbEffect.isProfileOrAccountWrite]

/-- C2 witness: a concrete invocation with null intent fails with the
missing-intent error and attempts no profile, account, or membership
write. -/
theorem commit_missingIntent_witness :
    ((handleComplete true (some "ann@example.com") none INITIAL_DATA
        (.ok (some ⟨"acct-9", none⟩)) (.ok ()) (.ok "p") (.ok "q") (.ok ())).2.filter
        DbEffect.isProfileOrAccountWrite = [])
    ∧ (handleComplete true (some "ann@example.com") none INITIAL_DATA
        (.ok (some ⟨"acct-9", none⟩)) (.ok ()) (.ok "p") (.ok "q") (.ok ())).1
        = .error .missingIntent := by
  have h := commit_missingIntent "ann@example.com" none INITIAL_DATA
    (.ok (some ⟨"acct-9", none⟩)) (.ok ()) (.ok "p") (.ok "q") (.ok ()) rfl
  exact ⟨h.1, h.2.2.2 ⟨"acct-9", none⟩ rfl rfl⟩

/-- With the latch already set, a sequence of evaluations that all have
the flow open invokes commit zero further times and keeps the latch set. -/
lemma runClaimAutoComplete_latched (evals : List (Bool × Bool × Bool))
    (hopen : ∀ e ∈ evals, e.1 = true) :
    runClaimAutoComplete true evals = (true, 0) := by
  induction evals with
  | nil => rfl
  | cons e rest ih =>
    have h1 : e.1 = true := hopen e (by simp)
    have hrest := ih (fun x hx => hopen x (by simp [hx]))
    simp [runClaimAutoComplete, claimAutoCompleteStep, h1, hrest]

/-- `getStepConfig` reads only the `intent` and `providerType` fields of
the flow data. -/
lemma getStepConfig_congr (step : AuthFlowStep) (d1 d2 : FlowData) (b : Bool)
    (hi : d1.intent = d2.intent) (hp : d1.providerType = d2.providerType) :
    getStepConfig step d1 b = getStepConfig step d2 b := by
  simp only [getStepConfig, stepTitle, hi, hp]

/-- `totalSteps` does not depend on the step argument at all. -/
lemma totalSteps_indep (s1 s2 : AuthFlowStep) (d : FlowData) (b : Bool) :
    (getStepConfig s1 d b).totalSteps = (getStepConfig s2 d b).totalSteps := by
  by_cases h : d.intent = some .provider <;> simp [getStepConfig, h]

/-- The computed initial step of a non-claim flow is never an auth step
and never the org-search step. -/
lemma getInitialStep_not_auth (ii : Option UserIntent) (ipt : Option ProviderType) :
    getInitialStep ii ipt false ≠ .auth ∧ getInitialStep ii ipt false ≠ .verifyCode
    ∧ getInitialStep ii ipt false ≠ .orgSearch := by
  revert ii ipt; decide

/-- The org-search step is only ever reached with the organization
provider type selected. -/
lemma reaches_orgSearch_org (b : Bool) (st : PathState) (h : Reaches b st) :
    st.step = .orgSearch → st.ptype = some .organization := by
  induction h with
  | start ii ipt =>
      exact fun hc => absurd hc (getInitialStep_not_auth ii ipt).2.2
  | startRestored ii ipt di dpt hco =>
      exact fun hc => absurd hc (getInitialStep_not_auth ii ipt).2.2
  | startClaim => intro hc; simp at hc
  | chooseProvider it pt hr ih => intro hc; simp at hc
  | chooseFamily it pt hr ih => intro hc; simp at hc
  | choosePT it pt t hr ih => intro hc; simp at hc
  | provInfoNextOrg it hr ih => exact fun _ => rfl
  | provInfoNextAuth it pt hb hpt hr ih => intro hc; simp at hc
  | orgSearchNext it hb hr ih => intro hc; simp at hc
  | famInfoNext it pt hr ih => intro hc; simp at hc
  | famNeedsNext it pt hb hr ih => intro hc; simp at hc
  | signUpVerify it pt hr ih => intro hc; simp at hc
  | backVerify it pt hr ih => intro hc; simp at hc
  | backProviderType it pt hr ih => intro hc; simp at hc
  | backProviderInfo it pt hr ih => intro hc; simp at hc
  | backOrgSearch it pt hr ih => intro hc; simp at hc
  | backFamilyInfo it pt hr ih => intro hc; simp at hc
  | backFamilyNeeds it pt hr ih => intro hc; simp at hc
  | backAuthOrg it hit hr ih => exact fun _ => rfl
  | backAuthProvInfo it pt hit hpt hr ih => intro hc; simp at hc
  | backAuthFamily it pt hit hr ih => intro hc; simp at hc

set_option synthInstance.maxSize 2000 in
set_option maxHeartbeats 1000000 in
/-- The finite core of the progress claim, checked over every combination
of branch selectors, step, and authentication flag that satisfies the
auth-only-if-unauthenticated and org-search-implies-organization side
conditions. -/
lemma progress_core : ∀ (b : Bool) (it : Option UserIntent)
    (pt : Option ProviderType) (step : AuthFlowStep),
    ((step = .auth ∨ step = .verifyCode) → b = false) →
    (step = .orgSearch → pt = some .organization) →
    (getStepConfig step (stateData ⟨step, it, pt⟩) b).stepNumber
      ≤ (getStepConfig step (stateData ⟨step, it, pt⟩) b).totalSteps
    ∧ (it = some .provider → pt = some .organization →
        (getStepConfig step (stateData ⟨step, it, pt⟩) b).totalSteps
          = 3 + (if b then 0 else 1))
    ∧ (it = some .provider → pt = some .caregiver →
        (getStepConfig step (stateData ⟨step, it, pt⟩) b).totalSteps
          = 2 + (if b then 0 else 1))
    ∧ (it = some .family →
        (getStepConfig step (stateData ⟨step, it, pt⟩) b).totalSteps
          = 2 + (if b then 0 else 1))
    ∧ ((step = .auth ∨ step = .verifyCode) →
        (getStepConfig step (stateData ⟨step, it, pt⟩) b).stepNumber
          = (getStepConfig step (stateData ⟨step, it, pt⟩) b).totalSteps)
    ∧ (∀ i, it = some i → step ∈ branchPath i pt →
        (getStepConfig step (stateData ⟨step, it, pt⟩) b).stepNumber
          = (branchPath i pt).indexOf step + 1) := by
  decide

/-- C3 counterexample: the claim as stated is false — an
already-authenticated claim flow is a valid provider+organization
configuration whose initial step is `auth` (`getInitialStep` ignores
authentication), a reachable state at which `stepNumber = 4` exceeds
`totalSteps = 3`. -/
theorem progress_totals_counterexample :
    Reaches true ⟨.auth, some .provider, some .organization⟩
    ∧ ¬ ((getStepConfig .auth
          (stateData ⟨.auth, some .provider, some .organization⟩) true).stepNumber
        ≤ (getStepConfig .auth
          (stateData ⟨.auth, some .provider, some .organization⟩) true).totalSteps)
    ∧ (getStepConfig .auth
        (stateData ⟨.auth, some .provider, some .organization⟩) true).stepNumber = 4
    ∧ (getStepConfig .auth
        (stateData ⟨.auth, some .provider, some .organization⟩) true).totalSteps = 3 :=
  ⟨Reaches.startClaim, by decide, by decide, by decide⟩

/-- C3 (amended): the totals are 3 plus 1 if unauthenticated for
provider+organization, 2 plus 1 if unauthenticated for provider+caregiver,
and 2 plus 1 if unauthenticated for family, and totalSteps never depends
on the current step, so it is invariant across a path once the branch
selectors are fixed; at every reachable navigation state other than an
auth-bearing step reached while authenticated, `stepNumber ≤ totalSteps`,
the auth and verify-code steps share the final ordinal (their stepNumber
equals totalSteps), and each data-collection step's stepNumber is its
1-based position in its branch's path.  The excluded case is real: an
already-authenticated claim flow opens on the auth step, where
stepNumber 4 exceeds totalSteps 3 (see the counterexample). -/
theorem progress_totals (b : Bool) (st : PathState) (h : Reaches b st)
    (hb : (st.step = .auth ∨ st.step = .verifyCode) → b = false)
    (d : FlowData) (hi : d.intent = st.intent) (hp : d.providerType = st.ptype) :
    ((getStepConfig st.step d b).stepNumber ≤ (getStepConfig st.step d b).totalSteps
    ∧ (st.intent = some .provider → st.ptype = some .organization →
        (getStepConfig st.step d b).totalSteps = 3 + (if b then 0 else 1))
    ∧ (st.intent = some .provider → st.ptype = some .caregiver →
        (getStepConfig st.step d b).totalSteps = 2 + (if b then 0 else 1))
    ∧ (st.intent = some .family →
        (getStepConfig st.step d b).totalSteps = 2 + (if b then 0 else 1))
    ∧ ((st.step = .auth ∨ st.step = .verifyCode) →
        (getStepConfig st.step d b).stepNumber = (getStepConfig st.step d b).totalSteps)
    ∧ (∀ i, st.intent = some i → st.step ∈ branchPath i st.ptype →
        (getStepConfig st.step d b).stepNumber
          = (branchPath i st.ptype).indexOf st.step + 1))
    ∧ (∀ (s1 s2 : AuthFlowStep) (d2 : FlowData) (b2 : Bool),
        (getStepConfig s1 d2 b2).totalSteps = (getStepConfig s2 d2 b2).totalSteps) := by
  have hcfg : getStepConfig st.step d b = getStepConfig st.step (stateData st) b :=
    getStepConfig_congr st.step d (stateData st) b hi hp
  rw [hcfg]
  exact ⟨progress_core b st.intent st.ptype st.step hb
      (reaches_orgSearch_org b st h),
    totalSteps_indep⟩

/-- C3 witness: the org-search step of an unauthenticated
provider+organization flow is step 3 of 4. -/
theorem progress_totals_witness :
    (getStepConfig .orgSearch
        (stateData ⟨.orgSearch, some .provider, some .organization⟩) false).stepNumber
      ≤ (getStepConfig .orgSearch
        (stateData ⟨.orgSearch, some .provider, some .organization⟩) false).totalSteps
    ∧ (getStepConfig .orgSearch
        (stateData ⟨.orgSearch, some .provider, some .organization⟩) false).totalSteps
      = 3 + (if false then 0 else 1) := by
  have hr : Reaches false ⟨.orgSearch, some .provider, some .organization⟩ :=
    Reaches.provInfoNextOrg (some .provider)
      (Reaches.start (some .provider) (some .organization))
  have h := progress_totals false ⟨.orgSearch, some .provider, some .organization⟩ hr
    (by intro hc; rcases hc with hc | hc <;> simp at hc)
    (stateData ⟨.orgSearch, some .provider, some .organization⟩) rfl rfl
  exact ⟨h.1.1, h.1.2.1 rfl rfl⟩

/-- C4: over any sequence of effect re-evaluations during which the flow
stays open, the auto-commit for an authenticated claim flow fires at most
once starting from an unset latch; and the latch is cleared only by an
evaluation in which the flow is closed. -/
theorem claim_autocommit_once (evals : List (Bool × Bool × Bool))
    (hopen : ∀ e ∈ evals, e.1 = true) :
    (runClaimAutoComplete false evals).2 ≤ 1
    ∧ (∀ latch isOpen hasClaim hasUser : Bool,
        (claimAutoCompleteStep latch isOpen hasClaim hasUser).1 = false →
        latch = true → isOpen = false) := by
  refine ⟨?_, by decide⟩
  induction evals with
  | nil => simp [runClaimAutoComplete]
  | cons e rest ih =>
    obtain ⟨o, c, u⟩ := e
    have h1 : o = true := hopen (o, c, u) (by simp)
    subst h1
    have hrest : ∀ x ∈ rest, x.1 = true := fun x hx => hopen x (by simp [hx])
    cases c with
    | false =>
      have := ih hrest
      simpa [runClaimAutoComplete, claimAutoCompleteStep] using this
    | true =>
      cases u with
      | false =>
        have := ih hrest
        simpa [runClaimAutoComplete, claimAutoCompleteStep] using this
      | true =>
        simp [runClaimAutoComplete, claimAutoCompleteStep,
          runClaimAutoComplete_latched rest hrest]

/-- C4 witness: three consecutive open re-evaluations of an authenticated
claim flow invoke commit at most once. -/
theorem claim_autocommit_once_witness :
    (runClaimAutoComplete false
      [(true, true, true), (true, true, true), (true, true, true)]).2 ≤ 1 :=
  (claim_autocommit_once _ (by decide)).1

/-- C5 counterexample: after submitting an incorrect 8-digit code, the
code input is NOT cleared — it still holds the entered code, contradicting
the claim that the field is cleared. -/
theorem verify_invalid_not_cleared :
    (handleVerifyOtp true .errInvalid exVerifyState).1.otpCode = "12345678"
    ∧ ("12345678" : String) ≠ "" :=
  ⟨rfl, by decide⟩

/-- C5 (amended): submitting an incorrect verification code leaves the
flow on its current step with the invalid-code error message (distinct
from the expired-code message), does not reset any other flow state, does
not invoke commit, and leaves the code field unchanged (it is not
cleared). -/
theorem verify_invalid_behavior (st : FlowState) (h8 : st.otpCode.length = 8) :
    (handleVerifyOtp true .errInvalid st).1.step = st.step
    ∧ (handleVerifyOtp true .errInvalid st).1.otpCode = st.otpCode
    ∧ (handleVerifyOtp true .errInvalid st).1.data = st.data
    ∧ (handleVerifyOtp true .errInvalid st).1.resendCooldown = st.resendCooldown
    ∧ (handleVerifyOtp true .errInvalid st).1.error
        = "Invalid code. Please check and try again."
    ∧ (handleVerifyOtp true .errInvalid st).1.error
        ≠ "This code has expired. Please request a new one."
    ∧ (handleVerifyOtp true .errInvalid st).2.2 = false := by
  refine ⟨?_, ?_, ?_, ?_, ?_, ?_, ?_⟩ <;>
    simp [handleVerifyOtp, h8]

/-- C5 witness (for the amended claim): the concrete verify-code state
stays on the verify-code step with its code intact. -/
theorem verify_invalid_behavior_witness :
    (handleVerifyOtp true .errInvalid exVerifyState).1.step = .verifyCode
    ∧ (handleVerifyOtp true .errInvalid exVerifyState).1.otpCode
        = exVerifyState.otpCode :=
  ⟨(verify_invalid_behavior exVerifyState (by decide)).1,
   (verify_invalid_behavior exVerifyState (by decide)).2.1⟩

/-- C6: a persisted draft older than 30 minutes never populates FlowData
on open — the result equals the no-draft result — and the expired draft is
removed from storage; the discard is idempotent (restoring again after the
discard gives the same result); an unparseable blob also never populates
FlowData. -/
theorem restore_expired_discard (ii : Option UserIntent) (p : ParsedDraft)
    (t now : Int) (st : FlowData)
    (ht : p.timestamp = some t) (hold : 30 * 60 * 1000 < now - t) :
    restoreEffect true false ii (some (some p)) now st = (st, none)
    ∧ restoreEffect true false ii none now st = (st, none)
    ∧ restoreEffect true false ii
        ((restoreEffect true false ii (some (some p)) now st).2) now st = (st, none)
    ∧ (restoreEffect true false ii (some none) now st).1 = st := by
  have hfresh : ¬ (now - t < 1800000) := by omega
  have h1 : restoreEffect true false ii (some (some p)) now st = (st, none) := by
    simp [restoreEffect, ht, hfresh]
  refine ⟨h1, by simp [restoreEffect], ?_, by simp [restoreEffect]⟩
  rw [h1]
  simp [restoreEffect]

/-- C6 witness: a draft saved at time 0 and restored one millisecond past
the 30-minute window is discarded. -/
theorem restore_expired_discard_witness :
    restoreEffect true false none (some (some exFamilyDraft)) (30 * 60 * 1000 + 1)
        INITIAL_DATA = (INITIAL_DATA, none) :=
  (restore_expired_discard none exFamilyDraft 0 (30 * 60 * 1000 + 1) INITIAL_DATA
      rfl (by decide)).1

/-- C7 counterexample: a fresh family-intent draft opened with a provider
intent preset is skipped but NOT deleted — the storage still holds the
draft, contradicting the claim that it is deleted from storage. -/
theorem restore_conflict_draft_not_deleted :
    (restoreEffect true false (some .provider) (some (some exFamilyDraft)) 1000
        INITIAL_DATA).1 = INITIAL_DATA
    ∧ (restoreEffect true false (some .provider) (some (some exFamilyDraft)) 1000
        INITIAL_DATA).2 ≠ none := by
  exact ⟨rfl, by decide⟩

/-- C7 (amended): a fresh draft whose intent conflicts with the
caller-supplied intent preset is not merged — FlowData is exactly what it
would be with no draft — but the persisted draft is left in storage
unchanged (it is not deleted). -/
theorem restore_conflict_no_merge (ii : UserIntent) (p : ParsedDraft)
    (sd : SavedData) (t now : Int) (st : FlowData)
    (ht : p.timestamp = some t) (hfresh : now - t < 30 * 60 * 1000)
    (hd : p.draftData = some sd) (hconf : sd.intent ≠ some ii) :
    restoreEffect true false (some ii) (some (some p)) now st
      = (st, some (some p)) := by
  have hf : now - t < 1800000 := by omega
  simp [restoreEffect, ht, hd, hf, hconf]

/-- C7 witness: the concrete family draft against a provider preset is
left unmerged and undeleted. -/
theorem restore_conflict_no_merge_witness :
    restoreEffect true false (some .provider) (some (some exFamilyDraft)) 1000
        INITIAL_DATA = (INITIAL_DATA, some (some exFamilyDraft)) :=
  restore_conflict_no_merge .provider exFamilyDraft exFamilySaved 0 1000
    INITIAL_DATA rfl (by decide) rfl (by decide)

/-- C8: the persisted draft is insensitive to the password, email, and
claim-linkage fields — two flow states that differ only in those fields
produce identical persistence effects — and no persistence write occurs
while the current step is auth or verify-code. -/
theorem draft_excludes_sensitive (d1 : FlowData) (e p : String)
    (cid : Option String) (cp : Option Profile) (isOpen : Bool)
    (step : AuthFlowStep) (now : Int) :
    persistEffect isOpen step
        { d1 with email := e, password := p, claimedProfileId := cid,
                  claimedProfile := cp } now
      = persistEffect isOpen step d1 now
    ∧ (step = .auth ∨ step = .verifyCode →
        persistEffect isOpen step d1 now = none) := by
  constructor
  · rfl
  · rintro (rfl | rfl) <;> simp [persistEffect]

/-- C8 witness: a concrete state with different password/email/claim
fields persists the same blob, and no write happens at the auth step. -/
theorem draft_excludes_sensitive_witness :
    persistEffect true .providerInfo
        { exClaimData with email := "x@y.z", password := "hunter22",
                           claimedProfileId := none, claimedProfile := none } 42
      = persistEffect true .providerInfo exClaimData 42
    ∧ persistEffect true .auth exClaimData 42 = none :=
  ⟨(draft_excludes_sensitive exClaimData "x@y.z" "hunter22" none none true
      .providerInfo 42).1,
   (draft_excludes_sensitive exClaimData "x@y.z" "hunter22" none none true
      .auth 42).2 (Or.inl rfl)⟩

/-- C9: the resend cooldown is 30 seconds after the first code send (the
sign-up path that requires verification, and the email-me-a-code sign-in
path), 60 seconds after an explicit successful resend, and while the
cooldown is positive a resend request changes nothing and performs no
gateway call. -/
theorem resend_cooldown_policy :
    (∀ st : FlowState, 8 ≤ st.data.password.length →
        (handleSignUp true (.okNoSession false) st).1.resendCooldown = 30
        ∧ (handleSignUp true (.okNoSession false) st).1.step = .verifyCode)
    ∧ (∀ st : FlowState, jsTrim st.data.email ≠ "" →
        (handleSendOtpForSignIn true .ok st).1.resendCooldown = 30)
    ∧ (∀ st : FlowState, st.resendCooldown = 0 →
        (handleResendCode true .ok st).1.resendCooldown = 60
        ∧ (handleResendCode true .ok st).2 = [.signInWithOtpCall])
    ∧ (∀ (configured : Bool) (res : SendOtpOutcome) (st : FlowState),
        0 < st.resendCooldown →
        handleResendCode configured res st = (st, [])) := by
  refine ⟨?_, ?_, ?_, ?_⟩
  · intro st h
    have hlt : ¬ st.data.password.length < 8 := by omega
    simp [handleSignUp, hlt]
  · intro st h
    simp [handleSendOtpForSignIn, h]
  · intro st h
    simp [handleResendCode, h]
  · intro cfg res st h
    simp [handleResendCode, h]

/-- C9 witness: concrete states exercise the 30s first-send cooldown, the
60s resend cooldown, and the no-op resend under a positive cooldown. -/
theorem resend_cooldown_policy_witness :
    (handleSignUp true (.okNoSession false) exAuthState).1.resendCooldown = 30
    ∧ (handleResendCode true .ok { exAuthState with step := .verifyCode }).1.resendCooldown = 60
    ∧ handleResendCode true .ok exCooldownState = (exCooldownState, []) :=
  ⟨(resend_cooldown_policy.1 exAuthState (by decide)).1,
   (resend_cooldown_policy.2.2.1 { exAuthState with step := .verifyCode } rfl).1,
   resend_cooldown_policy.2.2.2 true .ok exCooldownState (by decide)⟩

/-- C10: the provider-info Continue action is enabled only when the
relevant name (organization name for organizations, display name
otherwise) is non-empty after trimming, city or state is non-empty after
trimming, at least one care type is selected, and the phone number is
non-empty after trimming. -/
theorem providerInfo_advance_gate (loading : Bool) (d : FlowData)
    (h : providerInfoNextEnabled loading d = true) :
    jsTrim (if d.providerType = some .organization then d.orgName else d.displayName) ≠ ""
    ∧ (jsTrim d.city ≠ "" ∨ jsTrim d.state ≠ "")
    ∧ d.careTypes ≠ []
    ∧ jsTrim d.phone ≠ "" := by
  have hv : isProviderInfoValid d = true := by
    cases hvv : isProviderInfoValid d
    · rw [providerInfoNextEnabled, hvv] at h; simp at h
    · rfl
  simp only [isProviderInfoValid, Bool.and_eq_true, Bool.or_eq_true,
    decide_eq_true_eq] at hv
  obtain ⟨⟨⟨hn, hcs⟩, hct⟩, hp⟩ := hv
  refine ⟨ne_empty_of_len_pos _ hn, ?_, ne_nil_of_len_pos _ hct,
    ne_empty_of_len_pos _ hp⟩
  exact hcs.elim (fun hc => Or.inl (ne_empty_of_len_pos _ hc))
    (fun hs => Or.inr (ne_empty_of_len_pos _ hs))

/-- C10 witness: a valid concrete provider-info state enables Continue and
satisfies all four conditions. -/
theorem providerInfo_advance_gate_witness :
    providerInfoNextEnabled false exClaimData = true
    ∧ (jsTrim (if exClaimData.providerType = some .organization then exClaimData.orgName
          else exClaimData.displayName) ≠ ""
        ∧ (jsTrim exClaimData.city ≠ "" ∨ jsTrim exClaimData.state ≠ "")
        ∧ exClaimData.careTypes ≠ []
        ∧ jsTrim exClaimData.phone ≠ "") :=
  ⟨by decide, providerInfo_advance_gate false exClaimData (by decide)⟩

end Olera
